import Mathlib

/-!
Shallow embedding of the RudderStack tracking coordinator
(`RudderStackTracker` in the repository's tracking module) and proofs of
the specification claims about it.

Modelling conventions:
* DOM elements are identified by natural numbers (identity, not attribute
  equality), matching the `Set<HTMLElement>` membership-by-identity of the
  source.
* The browser's per-element click-listener registry is modelled
  conservatively as a multiset (`List Nat`): `addEventListener` appends,
  `removeEventListener` erases one occurrence.  The source's guard via the
  `trackedElements` set is what must keep this a set.
* `history.pushState` / `history.replaceState` are values of `HistFn`:
  either the browser-native implementation or the wrapper installed by
  `setupPageTracking`.
* Asynchronous callbacks (the SDK `ready` callback, `setTimeout` debounce
  timers, mutation batches) are modelled as explicit events: `initialize`
  runs its ready-callback body inline, debounce callbacks sit in a
  `pending` queue until a `fireNextTimer` event runs them.
* External built-ins (`new URL(u).pathname`, `JSON.parse`) are not
  re-implemented: a URL is passed together with its path component
  (`UrlParts`), and `JSON.parse` is an arbitrary function parameter
  returning `Except` (an `Except.error` models the thrown exception).
-/

namespace RudderStack

/-! ### Page filtering (trackPageView's shouldTrack predicate) -/

/-- Models the JS test `pathname.startsWith("/")`. -/
def startsWithSlash (p : String) : Bool :=
  match p.data with
  | [] => false
  | c :: _ => c == '/'

/-- Models the JS regex test `pathname.match(/^\/[^\/]+$/)`: a leading
slash followed by one or more non-slash characters, nothing else. -/
def matchesSlugRegex (p : String) : Bool :=
  match p.data with
  | [] => false
  | c :: rest => c == '/' && !rest.isEmpty && rest.all (fun ch => ch != '/')

/-- The `shouldTrack` computation inside `trackPageView`:
`trackedPages.some(page => ...)` where each iteration returns true on an
exact match, and otherwise, when the pathname matches the single-segment
regex, returns `trackedPages.includes("/[slug]")`. -/
def shouldTrack (trackedPages : List String) (pathname : String) : Bool :=
  trackedPages.any (fun page =>
    if page == pathname then true
    else if startsWithSlash pathname && matchesSlugRegex pathname then
      trackedPages.contains "/[slug]"
    else false)

/-- Spec-side definition (from the spec's words, for comparison with
`shouldTrack`): the path is a single non-root segment, i.e. `/segment`
with no further slashes and not the bare root `/`. -/
def specSingleSegment (p : String) : Bool :=
  startsWithSlash p && !(p == "/") && (p.data.drop 1).all (fun ch => ch != '/')

/-- Spec-side filtering policy (from the spec's words): emit iff the path
exactly matches an allowlist entry, or it is a single non-root segment and
the allowlist contains the wildcard-slug marker. -/
def shouldTrackSpec (trackedPages : List String) (pathname : String) : Bool :=
  trackedPages.contains pathname ||
    (specSingleSegment pathname && trackedPages.contains "/[slug]")

/-! ### Data model -/

/-- JSON-like values appearing in event property bags. -/
inductive JVal where
  | null : JVal
  | bool : Bool → JVal
  | num : Int → JVal
  | str : String → JVal
deriving DecidableEq, Repr

/-- Models the JS truthiness default `v || null` on optional env strings
(the empty string is falsy). -/
def jsOrNull (v : Option String) : Option String :=
  match v with
  | none => none
  | some s => if s = "" then none else some s

/-- Models the JS truthiness default `v || d` on a nullable string
(the empty string is falsy). -/
def jsOrDefault (v : Option String) (d : String) : String :=
  match v with
  | none => d
  | some s => if s = "" then d else s

/-- Models the JS guard `!process.env.X` (absent or empty string). -/
def envMissing (v : Option String) : Bool :=
  match v with
  | none => true
  | some s => s == ""

/-- Module-level configuration read from the environment at process
start: write key, data-plane URL, the two common-property ids, and the
tracked-page allowlist (already split on commas and trimmed). -/
structure Cfg where
  key : Option String
  url : Option String
  gameId : Option String
  projectId : Option String
  trackedPages : List String
deriving DecidableEq, Repr

/-- A URL together with its path component; bundles the external
`new URL(u).pathname` computation. -/
structure UrlParts where
  href : String
  pathname : String
deriving DecidableEq, Repr

/-- Document-level values read when building a page payload. -/
structure DocContext where
  title : String
  referrer : String
  search : String
  hash : String
deriving DecidableEq, Repr

/-- Identity of the function stored in `history.pushState` /
`history.replaceState`: the browser-native implementation or the wrapper
installed by `setupPageTracking`. -/
inductive HistFn where
  | native : HistFn
  | wrapped : HistFn
deriving DecidableEq, Repr

/-- The closure variables `currentUrl` / `isTracking` shared by the three
navigation hooks installed in `setupPageTracking`. -/
structure NavState where
  currentUrl : String
  isTracking : Bool
deriving DecidableEq, Repr

/-- A scheduled `setTimeout` debounce callback: the URL and source tag it
will emit for, and the delay it was scheduled with. -/
structure PendingTimer where
  url : UrlParts
  source : String
  delayMs : Nat
deriving DecidableEq, Repr

/-- The payload handed to the analytics client's `page` operation. -/
structure PageEvent where
  url : String
  title : String
  referrer : String
  path : String
  search : String
  hash : String
  source : String
  game_id : Option String
  project_id : Option String
deriving DecidableEq, Repr

/-- A call to the analytics client's `track` operation. -/
structure TrackCall where
  eventName : String
  properties : List (String × JVal)
deriving DecidableEq, Repr

/-- Per-instance state of `RudderStackTracker`. -/
structure Tracker where
  trackedElements : List Nat
  mutationObserver : Bool
  originalPushState : Option HistFn
  originalReplaceState : Option HistFn
  popstateHandler : Bool
  isInitialized : Bool
deriving DecidableEq, Repr

/-- The state the private constructor produces. -/
def newTracker : Tracker :=
  { trackedElements := []
    mutationObserver := false
    originalPushState := none
    originalReplaceState := none
    popstateHandler := false
    isInitialized := false }

/-- Browser-global state plus the class-level statics and the observable
event log.  `listeners` is the multiset of elements currently carrying
the coordinator's click listener; `pages` / `tracks` record the calls
made into the analytics client. -/
structure World where
  tracker : Option Tracker
  isPageTrackingSetup : Bool
  histPush : HistFn
  histReplace : HistFn
  popstateListeners : Nat
  observers : Nat
  listeners : List Nat
  nav : Option NavState
  pending : List PendingTimer
  pages : List PageEvent
  tracks : List TrackCall
deriving DecidableEq, Repr

/-! ### Operations -/

/-- `RudderStackTracker.getInstance()`. -/
def getInstance (w : World) : Tracker × World :=
  match w.tracker with
  | some t => (t, w)
  | none => (newTracker, { w with tracker := some newTracker })

/-- The payload built inside `trackPageView`. -/
def mkPageEvent (cfg : Cfg) (u : UrlParts) (source : String)
    (dc : DocContext) : PageEvent :=
  { url := u.href
    title := dc.title
    referrer := dc.referrer
    path := u.pathname
    search := dc.search
    hash := dc.hash
    source := source
    game_id := jsOrNull cfg.gameId
    project_id := jsOrNull cfg.projectId }

/-- `trackPageView(url, source)`: emit one page event iff the path passes
the allowlist filter, otherwise leave the world unchanged. -/
def trackPageView (cfg : Cfg) (u : UrlParts) (source : String)
    (dc : DocContext) (w : World) : World :=
  if shouldTrack cfg.trackedPages u.pathname then
    { w with pages := w.pages ++ [mkPageEvent cfg u source dc] }
  else w

/-- Body of the `forEach` in `attachTrackingToElements`: attach a click
listener and record membership unless the element is already tracked. -/
def attachOne (t : Tracker) (w : World) (e : Nat) : Tracker × World :=
  if t.trackedElements.contains e then (t, w)
  else ({ t with trackedElements := e :: t.trackedElements },
        { w with listeners := e :: w.listeners })

/-- `attachTrackingToElements(elements)`. -/
def attachTrackingToElements (els : List Nat) (t : Tracker) (w : World) :
    Tracker × World :=
  els.foldl (fun tw e => attachOne tw.1 tw.2 e) (t, w)

/-- `setupPageTracking()`: initial page view, then (unless the class-level
flag is already set) save the original history functions, install the two
wrappers and the popstate listener, create the shared closure state, and
set the class-level flag. -/
def setupPageTracking (cfg : Cfg) (u : UrlParts) (dc : DocContext)
    (t : Tracker) (w : World) : Tracker × World :=
  let w := trackPageView cfg u "initial_load" dc w
  if w.isPageTrackingSetup then (t, w)
  else
    let t1 := { t with
      originalPushState := some w.histPush
      originalReplaceState := some w.histReplace
      popstateHandler := true }
    let w1 := { w with
      histPush := HistFn.wrapped
      histReplace := HistFn.wrapped
      popstateListeners := w.popstateListeners + 1
      nav := some { currentUrl := u.href, isTracking := true }
      isPageTrackingSetup := true }
    (t1, w1)

/-- A node delivered in a mutation record's `addedNodes` list:
its identity, whether it is an element node, whether it carries
`data-rudderstack-id`, and the result of its descendant query for that
attribute. -/
structure MNode where
  id : Nat
  isElement : Bool
  hasAttr : Bool
  descendantsWithAttr : List Nat
deriving DecidableEq, Repr

/-- A mutation record as seen by the observer callback. -/
inductive Mutation where
  | childList (addedNodes : List MNode)
  | attrChange (attributeName : String) (target : MNode)
deriving DecidableEq, Repr

/-- Handling of one added node inside the observer callback; attaching an
empty descendant list is a no-op, so the source's `length > 0` guard is
dropped without change of behavior. -/
def processAddedNode (n : MNode) (t : Tracker) (w : World) : Tracker × World :=
  if n.isElement then
    let tw := if n.hasAttr then attachTrackingToElements [n.id] t w else (t, w)
    attachTrackingToElements n.descendantsWithAttr tw.1 tw.2
  else (t, w)

/-- Handling of one mutation record. -/
def processMutation (m : Mutation) (t : Tracker) (w : World) : Tracker × World :=
  match m with
  | .childList added =>
      added.foldl (fun tw n => processAddedNode n tw.1 tw.2) (t, w)
  | .attrChange attrName target =>
      if attrName == "data-rudderstack-id" && target.hasAttr then
        attachTrackingToElements [target.id] t w
      else (t, w)

/-- One delivered batch of mutation records. -/
def processMutations (ms : List Mutation) (t : Tracker) (w : World) :
    Tracker × World :=
  ms.foldl (fun tw m => processMutation m tw.1 tw.2) (t, w)

/-- `setupObserver()`: initial scan over the elements currently carrying
the attribute, then connect the mutation observer. -/
def setupObserver (existing : List Nat) (t : Tracker) (w : World) :
    Tracker × World :=
  let tw := attachTrackingToElements existing t w
  ({ tw.1 with mutationObserver := true },
   { tw.2 with observers := tw.2.observers + 1 })

/-- `initialize()`: soft-fail on the initialized flag or missing write
key / endpoint URL; otherwise load the SDK and run the ready callback
(readiness is modelled as firing), which re-checks the flag, performs
setup, and resolves `true`. -/
def initializeTracker (cfg : Cfg) (u : UrlParts) (dc : DocContext)
    (existing : List Nat) (t : Tracker) (w : World) : Bool × Tracker × World :=
  if t.isInitialized then (false, t, w)
  else if envMissing cfg.key || envMissing cfg.url then (false, t, w)
  else if t.isInitialized then (true, t, w)
  else
    let tw := setupPageTracking cfg u dc t w
    let tw2 := setupObserver existing tw.1 tw.2
    (true, { tw2.1 with isInitialized := true }, tw2.2)

/-- The `forEach` of `removeEventListener` over the membership set in
`destroy()`: erase one occurrence per set member. -/
def removeListeners (elems : List Nat) (listeners : List Nat) : List Nat :=
  elems.foldl (fun acc e => acc.erase e) listeners

/-- `destroy()`, in source order: remove listeners and clear the set,
disconnect the observer, restore saved history functions when present,
remove the popstate listener when present, reset the instance flag,
clear the singleton and the class-level page-tracking flag. -/
def destroy (t : Tracker) (w : World) : Tracker × World :=
  let w1 := { w with listeners := removeListeners t.trackedElements w.listeners }
  let t1 := { t with trackedElements := [] }
  let t2 := if t1.mutationObserver then { t1 with mutationObserver := false } else t1
  let w2 := if t1.mutationObserver then { w1 with observers := w1.observers - 1 } else w1
  let w3 := match t2.originalPushState with
    | some f => { w2 with histPush := f }
    | none => w2
  let w4 := match t2.originalReplaceState with
    | some f => { w3 with histReplace := f }
    | none => w3
  let t3 := if t2.popstateHandler then { t2 with popstateHandler := false } else t2
  let w5 := if t2.popstateHandler then
      { w4 with popstateListeners := w4.popstateListeners - 1 }
    else w4
  let t4 := { t3 with isInitialized := false }
  let w6 := { w5 with tracker := none, isPageTrackingSetup := false }
  (t4, w6)

/-! ### Navigation hooks and the debounce gate -/

/-- Shared body of the three navigation hooks (they differ only in the
source tag): after the underlying browser operation, compare the new URL
against the closure's `currentUrl`; when it differs and the gate is open,
update `currentUrl`, close the gate, and schedule the 100 ms debounce
callback. -/
def navCore (source : String) (newU : UrlParts) (w : World) : World :=
  match w.nav with
  | none => w
  | some ns =>
    if newU.href != ns.currentUrl && ns.isTracking then
      { w with nav := some { currentUrl := newU.href, isTracking := false }
               pending := w.pending ++ [{ url := newU, source := source, delayMs := 100 }] }
    else w

/-- The wrapper installed over `history.pushState`. -/
def pushStateWrapped (newU : UrlParts) (w : World) : World :=
  navCore "pushstate" newU w

/-- The wrapper installed over `history.replaceState`. -/
def replaceStateWrapped (newU : UrlParts) (w : World) : World :=
  navCore "replacestate" newU w

/-- The stored popstate handler. -/
def popstateFired (newU : UrlParts) (w : World) : World :=
  navCore "popstate" newU w

/-- A host call of `history.pushState(...)` resulting in `newU`: runs the
wrapper only when the wrapper is currently installed. -/
def historyPushEvent (newU : UrlParts) (w : World) : World :=
  match w.histPush with
  | .native => w
  | .wrapped => pushStateWrapped newU w

/-- Expiry of the oldest scheduled debounce callback: emit the page view
for the captured URL and source tag, then reopen the gate. -/
def fireNextTimer (cfg : Cfg) (dc : DocContext) (w : World) : World :=
  match w.pending with
  | [] => w
  | p :: rest =>
    let w1 := { w with pending := rest }
    let w2 := trackPageView cfg p.url p.source dc w1
    { w2 with nav := w2.nav.map (fun ns => { ns with isTracking := true }) }

/-! ### Click handling -/

/-- The three `data-rudderstack-*` attribute reads on the clicked
element (`getAttribute` yields `none` for an absent attribute). -/
structure ElemAttrs where
  rudderId : Option String
  eventAttr : Option String
  propsAttr : Option String
deriving DecidableEq, Repr

/-- The module-level `common_properties` object as a property bag. -/
def commonPropsObj (cfg : Cfg) : List (String × JVal) :=
  [("game_id", match jsOrNull cfg.gameId with
     | some s => JVal.str s
     | none => JVal.null),
   ("project_id", match jsOrNull cfg.projectId with
     | some s => JVal.str s
     | none => JVal.null)]

/-- JS object spread `\x7b...a, ...b\x7d`: keys of `b` override keys of
`a`. -/
def spreadMerge (a b : List (String × JVal)) : List (String × JVal) :=
  a.filter (fun kv => !(b.any (fun kv2 => kv2.1 == kv.1))) ++ b

/-- `trackingEvent(event)`: read the attributes, default the event name,
run `JSON.parse` on the (defaulted) properties attribute, and emit one
`track` call with the spread-merged properties.  `JSON.parse` is the
external built-in, passed as `parseJson`; its thrown exception is the
`Except.error` case and is not caught. -/
def trackingEvent (parseJson : String → Except String (List (String × JVal)))
    (cfg : Cfg) (el : ElemAttrs) : Except String (List TrackCall) :=
  let rudderEventName := jsOrDefault el.eventAttr "Element Clicked"
  match parseJson (jsOrDefault el.propsAttr "\x7b\x7d") with
  | .error e => .error e
  | .ok properties =>
      .ok [{ eventName := rudderEventName
             properties := spreadMerge (commonPropsObj cfg) properties }]

/-! ### Test fixtures -/

def cfgGood : Cfg :=
  { key := some "k", url := some "u", gameId := some "g",
    projectId := some "p", trackedPages := ["/", "/search", "/[slug]"] }

def cfgNoKey : Cfg := { cfgGood with key := none }

def urlHome : UrlParts := { href := "http://h/", pathname := "/" }

def urlAbout : UrlParts := { href := "http://h/about", pathname := "/about" }

def urlDeep : UrlParts := { href := "http://h/a/b", pathname := "/a/b" }

def dc0 : DocContext := { title := "t", referrer := "", search := "", hash := "" }

def w0 : World :=
  { tracker := none, isPageTrackingSetup := false, histPush := HistFn.native,
    histReplace := HistFn.native, popstateListeners := 0, observers := 0,
    listeners := [], nav := none, pending := [], pages := [], tracks := [] }

def tEx : Tracker := { newTracker with trackedElements := [5] }

def wEx : World := { w0 with listeners := [5] }

/-- A concrete stand-in for the external `JSON.parse`, used only to
instantiate the click-handler theorems at concrete inputs. -/
def parseStub : String → Except String (List (String × JVal)) :=
  fun s => if s = "\x7b\x7d" then Except.ok [] else Except.error "Unexpected token"

def elPlain : ElemAttrs :=
  { rudderId := some "x", eventAttr := none, propsAttr := none }

def elBad : ElemAttrs :=
  { rudderId := some "x", eventAttr := none, propsAttr := some "not json" }

def exInit1 : Bool × Tracker × World :=
  initializeTracker cfgGood urlHome dc0 [] (getInstance w0).1 (getInstance w0).2

def exDestroyed : Tracker × World := destroy exInit1.2.1 exInit1.2.2

def exInit2 : Bool × Tracker × World :=
  initializeTracker cfgGood urlHome dc0 [] (getInstance exDestroyed.2).1
    (getInstance exDestroyed.2).2

def wSetup : World := { w0 with isPageTrackingSetup := true }

def wNav : World :=
  { w0 with
    nav := some { currentUrl := "http://h/", isTracking := true }
    histPush := HistFn.wrapped }

/-- Claim C3's invariant: the membership set is duplicate-free and every
element carries exactly as many click listeners as its membership
indicates (hence at most one). -/
def Inv (t : Tracker) (w : World) : Prop :=
  t.trackedElements.Nodup ∧
    ∀ e, List.count e w.listeners = (if e ∈ t.trackedElements then 1 else 0)

/-! ### Helper lemmas -/

theorem any_body_eq (trackedPages : List String) (pathname page : String) :
    (if page == pathname then true
     else if startsWithSlash pathname && matchesSlugRegex pathname then
       trackedPages.contains "/[slug]"
     else false)
    = ((page == pathname) ||
        (startsWithSlash pathname && matchesSlugRegex pathname &&
          trackedPages.contains "/[slug]")) := by
  cases h1 : (page == pathname) <;>
    cases h2 : (startsWithSlash pathname && matchesSlugRegex pathname) <;>
      simp [h1, h2]

theorem any_const_or (l : List String) (g : String → Bool) (c : Bool) :
    l.any (fun x => g x || c) = (l.any g || (c && !l.isEmpty)) := by
  induction l with
  | nil => simp
  | cons a as ih =>
    simp [List.any_cons, ih]
    cases g a <;> cases c <;> simp

theorem contains_ne_nil {l : List String} {a : String}
    (h : l.contains a = true) : l.isEmpty = false := by
  cases l with
  | nil => simp [List.contains] at h
  | cons b bs => simp

theorem startsWithSlash_mk_cons (c : Char) (rest : List Char) :
    startsWithSlash (String.mk (c :: rest)) = (c == '/') := rfl

theorem matchesSlugRegex_mk_cons (c : Char) (rest : List Char) :
    matchesSlugRegex (String.mk (c :: rest))
      = (c == '/' && !rest.isEmpty && rest.all (fun ch => ch != '/')) := rfl

/-- The code-side single-segment test (the `startsWith` guard together
with the regex) coincides with the spec-side single non-root segment
test. -/
theorem singleSegment_eq (p : String) :
    (startsWithSlash p && matchesSlugRegex p) = specSingleSegment p := by
  cases p with
  | mk d =>
    cases d with
    | nil => rfl
    | cons c rest =>
      cases hc : (c == '/')
      · simp [specSingleSegment, startsWithSlash_mk_cons, hc]
      · rw [beq_iff_eq] at hc
        subst hc
        cases rest with
        | nil => decide
        | cons r rs =>
          have hroot : (String.mk ('/' :: r :: rs) == "/") = false := by
            rw [beq_eq_false_iff_ne]
            intro hcon
            have hd : '/' :: r :: rs = ['/'] := congrArg String.data hcon
            simp at hd
          simp [specSingleSegment, startsWithSlash_mk_cons,
            matchesSlugRegex_mk_cons, hroot, List.all_cons]

theorem any_eq_contains (l : List String) (a : String) :
    l.any (fun page => page == a) = l.contains a := by
  rw [List.contains_eq_any_beq]
  cases h : l.any fun x => a == x
  · rw [Bool.eq_false_iff]
    intro hc
    rw [Bool.eq_false_iff] at h
    exact h (List.any_beq.mpr (List.any_beq'.mp hc))
  · exact List.any_beq'.mpr (List.any_beq.mp h)

/-- Core equivalence: the code's `shouldTrack` agrees with the spec's
filtering policy on every allowlist and every pathname. -/
theorem shouldTrack_eq_spec (trackedPages : List String) (pathname : String) :
    shouldTrack trackedPages pathname = shouldTrackSpec trackedPages pathname := by
  unfold shouldTrack shouldTrackSpec
  have hbody : (fun page =>
      if page == pathname then true
      else if startsWithSlash pathname && matchesSlugRegex pathname then
        trackedPages.contains "/[slug]"
      else false)
      = (fun page => (page == pathname) ||
          (startsWithSlash pathname && matchesSlugRegex pathname &&
            trackedPages.contains "/[slug]")) := by
    funext page; exact any_body_eq trackedPages pathname page
  rw [hbody, any_const_or, any_eq_contains, singleSegment_eq]
  cases hsl : trackedPages.contains "/[slug]"
  · simp
  · have hne : trackedPages.isEmpty = false := contains_ne_nil hsl
    simp [hne]


theorem contains_eq_mem (l : List Nat) (e : Nat) :
    l.contains e = true ↔ e ∈ l := by
  constructor
  · intro h; exact List.elem_iff.mp h
  · intro h; exact List.elem_iff.mpr h

theorem removeListeners_nil (ls : List Nat) : removeListeners [] ls = ls := rfl

/-- Erasing one occurrence per member of a duplicate-free list lowers each
count by its membership indicator. -/
theorem count_removeListeners (elems : List Nat) (hnd : elems.Nodup) :
    ∀ (ls : List Nat) (e : Nat),
      List.count e (removeListeners elems ls)
        = List.count e ls - (if e ∈ elems then 1 else 0) := by
  induction elems with
  | nil => intro ls e; simp [removeListeners]
  | cons a as ih =>
    intro ls e
    rw [List.nodup_cons] at hnd
    have h1 : removeListeners (a :: as) ls = removeListeners as (ls.erase a) := rfl
    rw [h1, ih hnd.2 (ls.erase a) e]
    by_cases he : e = a
    · subst he
      rw [List.count_erase_self]
      have hnotin : e ∉ as := hnd.1
      simp [hnotin]
    · rw [List.count_erase_of_ne he]
      simp [List.mem_cons, he]

/-- Normal form of `destroy`. -/
theorem destroy_eq (t : Tracker) (w : World) :
    destroy t w =
      ({ trackedElements := []
         mutationObserver := false
         originalPushState := t.originalPushState
         originalReplaceState := t.originalReplaceState
         popstateHandler := false
         isInitialized := false },
       { w with
         listeners := removeListeners t.trackedElements w.listeners
         observers := if t.mutationObserver then w.observers - 1 else w.observers
         histPush := match t.originalPushState with
           | some f => f
           | none => w.histPush
         histReplace := match t.originalReplaceState with
           | some f => f
           | none => w.histReplace
         popstateListeners := if t.popstateHandler then
             w.popstateListeners - 1
           else w.popstateListeners
         tracker := none
         isPageTrackingSetup := false }) := by
  unfold destroy
  cases hm : t.mutationObserver <;> cases hp : t.originalPushState <;>
    cases hr : t.originalReplaceState <;> cases hh : t.popstateHandler <;>
      simp [hm, hp, hr, hh]

theorem attachOne_inv (t : Tracker) (w : World) (e : Nat) (h : Inv t w) :
    Inv (attachOne t w e).1 (attachOne t w e).2 := by
  obtain ⟨hnd, hcount⟩ := h
  unfold attachOne
  by_cases hc : t.trackedElements.contains e = true
  · rw [if_pos hc]
    exact ⟨hnd, hcount⟩
  · rw [if_neg hc]
    have hne : e ∉ t.trackedElements := fun hmem =>
      hc ((contains_eq_mem _ _).mpr hmem)
    refine ⟨?_, ?_⟩
    · simp only [List.nodup_cons]
      exact ⟨hne, hnd⟩
    · intro x
      simp only [List.count_cons]
      by_cases hx : x = e
      · subst hx
        have h0 := hcount x
        simp [hne] at h0
        simp [h0, List.mem_cons]
      · have hbeq : (e == x) = false := by
          rw [beq_eq_false_iff_ne]
          intro hcon; exact hx hcon.symm
        rw [hcount x]
        simp [hbeq, List.mem_cons, hx]

/-- Preservation of a predicate through the pair-valued folds used by the
attach and mutation-processing loops. -/
theorem foldl_pred {α : Type} {P : Tracker → World → Prop}
    (f : Tracker × World → α → Tracker × World)
    (hf : ∀ tw a, P tw.1 tw.2 → P (f tw a).1 (f tw a).2) :
    ∀ (l : List α) (tw : Tracker × World), P tw.1 tw.2 →
      P (l.foldl f tw).1 (l.foldl f tw).2 := by
  intro l
  induction l with
  | nil => intro tw h; simpa using h
  | cons a as ih =>
    intro tw h
    simpa using ih (f tw a) (hf tw a h)

theorem attach_inv (els : List Nat) (t : Tracker) (w : World) (h : Inv t w) :
    Inv (attachTrackingToElements els t w).1 (attachTrackingToElements els t w).2 :=
  foldl_pred (fun tw e => attachOne tw.1 tw.2 e)
    (fun tw e hp => attachOne_inv tw.1 tw.2 e hp) els (t, w) h

theorem processAddedNode_inv (n : MNode) (t : Tracker) (w : World)
    (h : Inv t w) :
    Inv (processAddedNode n t w).1 (processAddedNode n t w).2 := by
  unfold processAddedNode
  by_cases hel : n.isElement = true
  · by_cases ha : n.hasAttr = true
    · rw [if_pos hel, if_pos ha]
      exact attach_inv _ _ _ (attach_inv _ _ _ h)
    · rw [if_pos hel, if_neg ha]
      exact attach_inv _ _ _ h
  · rw [if_neg hel]
    exact h

theorem processMutation_inv (m : Mutation) (t : Tracker) (w : World)
    (h : Inv t w) :
    Inv (processMutation m t w).1 (processMutation m t w).2 := by
  cases m with
  | childList added =>
    exact foldl_pred (fun tw n => processAddedNode n tw.1 tw.2)
      (fun tw n hp => processAddedNode_inv n tw.1 tw.2 hp) added (t, w) h
  | attrChange attrName target =>
    dsimp only [processMutation]
    by_cases hc : (attrName == "data-rudderstack-id" && target.hasAttr) = true
    · rw [if_pos hc]
      exact attach_inv _ _ _ h
    · rw [if_neg hc]
      exact h

theorem processMutations_inv (ms : List Mutation) (t : Tracker) (w : World)
    (h : Inv t w) :
    Inv (processMutations ms t w).1 (processMutations ms t w).2 :=
  foldl_pred (fun tw m => processMutation m tw.1 tw.2)
    (fun tw m hp => processMutation_inv m tw.1 tw.2 hp) ms (t, w) h

theorem setupObserver_inv (existing : List Nat) (t : Tracker) (w : World)
    (h : Inv t w) :
    Inv (setupObserver existing t w).1 (setupObserver existing t w).2 := by
  have h2 := attach_inv existing t w h
  unfold setupObserver
  exact ⟨h2.1, h2.2⟩

theorem destroy_count_zero (t : Tracker) (w : World) (h : Inv t w) :
    ∀ e, List.count e (destroy t w).2.listeners = 0 := by
  intro e
  rw [destroy_eq]
  simp only []
  rw [count_removeListeners t.trackedElements h.1 w.listeners e, h.2 e]
  by_cases hm : e ∈ t.trackedElements <;> simp [hm]

theorem destroy_inv (t : Tracker) (w : World) (h : Inv t w) :
    Inv (destroy t w).1 (destroy t w).2 := by
  have hz := destroy_count_zero t w h
  constructor
  · rw [destroy_eq]; simp
  · intro e
    rw [destroy_eq] at hz ⊢
    simpa using hz e

theorem attachOne_noop (t : Tracker) (w : World) (e : Nat)
    (h : e ∈ t.trackedElements) : attachOne t w e = (t, w) := by
  unfold attachOne
  rw [(contains_eq_mem t.trackedElements e).mpr h]
  simp

/-! ### Claim theorems -/

/-- C1: a URL passed to `trackPageView` leads to a `page` call if and
only if its path component exactly equals an allowlist entry, or the
path is a single non-root segment and the allowlist contains the
wildcard-slug marker `/[slug]`; for the allowlist
`["/", "/search", "/[slug]"]` the paths `/`, `/search` and `/anything`
are tracked and `/a/b` is not. -/
theorem C1_page_filtering :
    (∀ (tp : List String) (p : String), shouldTrack tp p = shouldTrackSpec tp p)
    ∧ (∀ (cfg : Cfg) (u : UrlParts) (source : String) (dc : DocContext)
        (w : World),
        (trackPageView cfg u source dc w).pages
          = if shouldTrack cfg.trackedPages u.pathname then
              w.pages ++ [mkPageEvent cfg u source dc]
            else w.pages)
    ∧ shouldTrack ["/", "/search", "/[slug]"] "/" = true
    ∧ shouldTrack ["/", "/search", "/[slug]"] "/search" = true
    ∧ shouldTrack ["/", "/search", "/[slug]"] "/anything" = true
    ∧ shouldTrack ["/", "/search", "/[slug]"] "/a/b" = false := by
  refine ⟨shouldTrack_eq_spec, ?_, by decide, by decide, by decide, by decide⟩
  intro cfg u source dc w
  unfold trackPageView
  by_cases h : shouldTrack cfg.trackedPages u.pathname = true
  · rw [if_pos h, if_pos h]
  · rw [if_neg h, if_neg h]

/-- C2: `initialize()` fails softly, returning `false` both when the
instance is already initialized and when the write key or endpoint URL
is absent; a second call on the same instance returns `false` and leaves
the instance and world (listeners, observers) exactly unchanged. -/
theorem C2_initialize_soft_fail :
    (∀ (cfg : Cfg) (u : UrlParts) (dc : DocContext) (ex : List Nat)
        (t : Tracker) (w : World), t.isInitialized = true →
        initializeTracker cfg u dc ex t w = (false, t, w))
    ∧ (∀ (cfg : Cfg) (u : UrlParts) (dc : DocContext) (ex : List Nat)
        (t : Tracker) (w : World),
        (envMissing cfg.key || envMissing cfg.url) = true →
        initializeTracker cfg u dc ex t w = (false, t, w))
    ∧ (∀ (cfg : Cfg) (u u2 : UrlParts) (dc dc2 : DocContext)
        (ex ex2 : List Nat) (t : Tracker) (w : World),
        initializeTracker cfg u2 dc2 ex2
            (initializeTracker cfg u dc ex t w).2.1
            (initializeTracker cfg u dc ex t w).2.2
          = (false, (initializeTracker cfg u dc ex t w).2.1,
              (initializeTracker cfg u dc ex t w).2.2)) := by
  refine ⟨?_, ?_, ?_⟩
  · intro cfg u dc ex t w h
    unfold initializeTracker
    rw [if_pos h]
  · intro cfg u dc ex t w hm
    unfold initializeTracker
    by_cases hinit : t.isInitialized = true
    · rw [if_pos hinit]
    · rw [if_neg hinit, if_pos hm]
  · intro cfg u u2 dc dc2 ex ex2 t w
    unfold initializeTracker
    by_cases hinit : t.isInitialized = true
    · simp [hinit]
    · by_cases hmiss : (envMissing cfg.key || envMissing cfg.url) = true
      · simp [hinit, hmiss]
      · simp [hinit, hmiss]

/-- C2 witness: concrete soft failures of `initialize()`. -/
theorem C2_witness :
    initializeTracker cfgGood urlHome dc0 []
        { newTracker with isInitialized := true } w0
      = (false, { newTracker with isInitialized := true }, w0)
    ∧ initializeTracker cfgNoKey urlHome dc0 [] newTracker w0
      = (false, newTracker, w0) :=
  ⟨C2_initialize_soft_fail.1 cfgGood urlHome dc0 []
      { newTracker with isInitialized := true } w0 (by decide),
   C2_initialize_soft_fail.2.1 cfgNoKey urlHome dc0 [] newTracker w0
      (by decide)⟩

/-- C9: calling `destroy()` twice in succession is harmless — the second
call reproduces exactly the state the first call left behind. -/
theorem C9_destroy_twice (t : Tracker) (w : World) :
    destroy (destroy t w).1 (destroy t w).2 = destroy t w := by
  simp only [destroy_eq]
  cases hp : t.originalPushState <;> cases hr : t.originalReplaceState <;>
    simp [removeListeners_nil]

/-- C10: `destroy()` on a never-initialized instance (the state the
private constructor produces) leaves the history functions, the popstate
listener count, the click-listener registry and the observer count
unchanged, because each restoration step is guarded on the saved
reference being present. -/
theorem C10_destroy_never_initialized (w : World) :
    (destroy newTracker w).2.histPush = w.histPush
    ∧ (destroy newTracker w).2.histReplace = w.histReplace
    ∧ (destroy newTracker w).2.popstateListeners = w.popstateListeners
    ∧ (destroy newTracker w).2.listeners = w.listeners
    ∧ (destroy newTracker w).2.observers = w.observers
    ∧ (destroy newTracker w).2.tracker = none := by
  rw [destroy_eq]
  simp [newTracker, removeListeners_nil]

/-- C3: every operation that touches listeners — the initial element
scan, batch handling of the mutation observer (including attribute-change
records), and destroy — preserves the invariant that each element carries
at most one click listener, with attachment a no-op on elements already
in the membership set. -/
theorem C3_listener_invariant :
    (∀ (t : Tracker) (w : World) (els : List Nat), Inv t w →
        Inv (attachTrackingToElements els t w).1
          (attachTrackingToElements els t w).2)
    ∧ (∀ (t : Tracker) (w : World) (existing : List Nat), Inv t w →
        Inv (setupObserver existing t w).1 (setupObserver existing t w).2)
    ∧ (∀ (t : Tracker) (w : World) (ms : List Mutation), Inv t w →
        Inv (processMutations ms t w).1 (processMutations ms t w).2)
    ∧ (∀ (t : Tracker) (w : World), Inv t w →
        Inv (destroy t w).1 (destroy t w).2)
    ∧ (∀ (t : Tracker) (w : World) (e : Nat), e ∈ t.trackedElements →
        attachOne t w e = (t, w))
    ∧ (∀ (t : Tracker) (w : World), Inv t w →
        ∀ e, List.count e w.listeners ≤ 1) :=
  ⟨fun t w els h => attach_inv els t w h,
   fun t w ex h => setupObserver_inv ex t w h,
   fun t w ms h => processMutations_inv ms t w h,
   fun t w h => destroy_inv t w h,
   fun t w e h => attachOne_noop t w e h,
   fun t w h e => by
     rw [h.2 e]
     by_cases hm : e ∈ t.trackedElements <;> simp [hm]⟩

/-- C3 witness: the invariant holds after a concrete mutation batch on a
fresh state, and attaching an already-tracked element is a no-op. -/
theorem C3_witness :
    Inv (processMutations
          [Mutation.childList [{ id := 7, isElement := true, hasAttr := true,
                                 descendantsWithAttr := [8, 9] }]]
          newTracker w0).1
        (processMutations
          [Mutation.childList [{ id := 7, isElement := true, hasAttr := true,
                                 descendantsWithAttr := [8, 9] }]]
          newTracker w0).2
    ∧ attachOne tEx wEx 5 = (tEx, wEx) := by
  have hInv : Inv newTracker w0 := by
    constructor
    · simp [newTracker]
    · intro e
      simp [newTracker, w0]
  exact ⟨C3_listener_invariant.2.2.1 newTracker w0 _ hInv,
         C3_listener_invariant.2.2.2.2.1 tEx wEx 5 (by decide)⟩

/-- C4: a click on a tracked element parses the (defaulted) properties
attribute, merges the parsed bag over the common properties, and emits
exactly one `track` call whose name is the event-name attribute or
`"Element Clicked"` when that attribute is absent. -/
theorem C4_click_single_track
    (parseJson : String → Except String (List (String × JVal)))
    (cfg : Cfg) (el : ElemAttrs) (props : List (String × JVal))
    (h : parseJson (jsOrDefault el.propsAttr "\x7b\x7d") = .ok props) :
    trackingEvent parseJson cfg el
      = .ok [{ eventName := jsOrDefault el.eventAttr "Element Clicked"
               properties := spreadMerge (commonPropsObj cfg) props }]
    ∧ (el.eventAttr = none →
        trackingEvent parseJson cfg el
          = .ok [{ eventName := "Element Clicked"
                   properties := spreadMerge (commonPropsObj cfg) props }]) := by
  have hmain : trackingEvent parseJson cfg el
      = .ok [{ eventName := jsOrDefault el.eventAttr "Element Clicked"
               properties := spreadMerge (commonPropsObj cfg) props }] := by
    unfold trackingEvent
    rw [h]
  exact ⟨hmain, fun hnone => by rw [hmain, hnone]; rfl⟩

/-- C4 witness: a concrete click with an absent properties attribute
yields exactly one track call with the default event name. -/
theorem C4_witness :
    trackingEvent parseStub cfgGood elPlain
      = .ok [{ eventName := "Element Clicked"
               properties := spreadMerge (commonPropsObj cfgGood) [] }] :=
  (C4_click_single_track parseStub cfgGood elPlain [] (by rfl)).2 (by rfl)

/-- C8: when the properties attribute holds malformed JSON — i.e. the
parse function fails on the defaulted attribute string — the failure
propagates uncaught out of the click handler and no track call is
emitted. -/
theorem C8_malformed_json_uncaught
    (parseJson : String → Except String (List (String × JVal)))
    (cfg : Cfg) (el : ElemAttrs) (e : String)
    (h : parseJson (jsOrDefault el.propsAttr "\x7b\x7d") = .error e) :
    trackingEvent parseJson cfg el = .error e
    ∧ ∀ calls, trackingEvent parseJson cfg el ≠ .ok calls := by
  have hmain : trackingEvent parseJson cfg el = .error e := by
    unfold trackingEvent
    rw [h]
  refine ⟨hmain, fun calls hc => ?_⟩
  rw [hmain] at hc
  exact Except.noConfusion hc

/-- C8 witness: a concrete malformed-JSON click propagates the parse
error. -/
theorem C8_witness :
    trackingEvent parseStub cfgGood elBad = .error "Unexpected token" :=
  (C8_malformed_json_uncaught parseStub cfgGood elBad "Unexpected token"
    (by rfl)).1

/-- Normal form of `trackPageView`: only the page log changes, and it
grows exactly when the filter passes. -/
theorem trackPageView_eq (cfg : Cfg) (u : UrlParts) (source : String)
    (dc : DocContext) (w : World) :
    trackPageView cfg u source dc w
      = { w with pages := if shouldTrack cfg.trackedPages u.pathname then
            w.pages ++ [mkPageEvent cfg u source dc]
          else w.pages } := by
  unfold trackPageView
  by_cases hs : shouldTrack cfg.trackedPages u.pathname = true
  · rw [if_pos hs, if_pos hs]
  · rw [if_neg hs, if_neg hs]

/-- C5: `destroy()` removes the click listener of every element in the
membership set and empties it, disconnects the observer, restores the
saved history implementations, removes the popstate listener, resets the
initialization flag and clears the singleton, after which a fresh
`getInstance()` + `initialize()` succeeds again. -/
theorem C5_destroy_full_teardown (t : Tracker) (w : World) (h : Inv t w) :
    (∀ e, List.count e (destroy t w).2.listeners = 0)
    ∧ (destroy t w).1.trackedElements = []
    ∧ (destroy t w).1.mutationObserver = false
    ∧ (∀ f, t.originalPushState = some f → (destroy t w).2.histPush = f)
    ∧ (∀ f, t.originalReplaceState = some f → (destroy t w).2.histReplace = f)
    ∧ (t.popstateHandler = true →
        (destroy t w).2.popstateListeners = w.popstateListeners - 1)
    ∧ (destroy t w).1.popstateHandler = false
    ∧ (destroy t w).1.isInitialized = false
    ∧ (destroy t w).2.tracker = none
    ∧ (getInstance (destroy t w).2).1 = newTracker
    ∧ (∀ (cfg : Cfg) (u : UrlParts) (dc : DocContext) (ex : List Nat),
        envMissing cfg.key = false → envMissing cfg.url = false →
        (initializeTracker cfg u dc ex (getInstance (destroy t w).2).1
            (getInstance (destroy t w).2).2).1 = true) := by
  refine ⟨destroy_count_zero t w h, ?_, ?_, ?_, ?_, ?_, ?_, ?_, ?_, ?_, ?_⟩
  · rw [destroy_eq]
  · rw [destroy_eq]
  · intro f hf
    rw [destroy_eq]
    simp [hf]
  · intro f hf
    rw [destroy_eq]
    simp [hf]
  · intro hp
    rw [destroy_eq]
    simp [hp]
  · rw [destroy_eq]
  · rw [destroy_eq]
  · rw [destroy_eq]
  · rw [destroy_eq]
    rfl
  · intro cfg u dc ex hk hu
    rw [destroy_eq]
    have hget : getInstance
        { w with
          listeners := removeListeners t.trackedElements w.listeners
          observers := if t.mutationObserver then w.observers - 1 else w.observers
          histPush := match t.originalPushState with
            | some f => f
            | none => w.histPush
          histReplace := match t.originalReplaceState with
            | some f => f
            | none => w.histReplace
          popstateListeners := if t.popstateHandler then
              w.popstateListeners - 1
            else w.popstateListeners
          tracker := none
          isPageTrackingSetup := false }
        = (newTracker, { w with
          listeners := removeListeners t.trackedElements w.listeners
          observers := if t.mutationObserver then w.observers - 1 else w.observers
          histPush := match t.originalPushState with
            | some f => f
            | none => w.histPush
          histReplace := match t.originalReplaceState with
            | some f => f
            | none => w.histReplace
          popstateListeners := if t.popstateHandler then
              w.popstateListeners - 1
            else w.popstateListeners
          tracker := some newTracker
          isPageTrackingSetup := false }) := rfl
    rw [hget]
    unfold initializeTracker
    have h1 : newTracker.isInitialized = false := rfl
    have h2 : (envMissing cfg.key || envMissing cfg.url) = false := by
      rw [hk, hu]
      rfl
    simp [h1, h2]

/-- C5 witness: concrete full teardown and successful re-initialization. -/
theorem C5_witness :
    List.count 5 (destroy tEx wEx).2.listeners = 0
    ∧ (initializeTracker cfgGood urlHome dc0 []
        (getInstance (destroy tEx wEx).2).1
        (getInstance (destroy tEx wEx).2).2).1 = true := by
  have hInv : Inv tEx wEx := by
    constructor
    · decide
    · intro e
      by_cases he : e = 5 <;>
        simp [tEx, wEx, w0, newTracker, he, List.count_cons]
  have h := C5_destroy_full_teardown tEx wEx hInv
  exact ⟨h.1 5,
    h.2.2.2.2.2.2.2.2.2.2 cfgGood urlHome dc0 [] (by decide) (by decide)⟩

/-- C6 counterexample: after a successful initialize, the class-level
flag is set, one popstate listener exists, and the history wrapper is
installed; `destroy()` resets the flag to `false` (it does not survive
destruction); and a subsequent getInstance + initialize re-installs the
interception — flag, wrapper and popstate listener are all back —
contradicting "never re-installed across destroy/recreate cycles". -/
theorem C6_counterexample :
    exInit1.2.2.isPageTrackingSetup = true
    ∧ exInit1.2.2.popstateListeners = 1
    ∧ exInit1.2.2.histPush = HistFn.wrapped
    ∧ exDestroyed.2.isPageTrackingSetup = false
    ∧ exDestroyed.2.popstateListeners = 0
    ∧ exDestroyed.2.histPush = HistFn.native
    ∧ exInit2.1 = true
    ∧ exInit2.2.2.isPageTrackingSetup = true
    ∧ exInit2.2.2.popstateListeners = 1
    ∧ exInit2.2.2.histPush = HistFn.wrapped := by decide

/-- C6 amended: the class-level page-tracking-setup flag does not survive
destruction — `destroy()` explicitly resets it, so navigation
interception is re-installed by the next `initialize()` after a
destroy/recreate cycle.  While the flag remains set, `setupPageTracking`
installs nothing: it leaves the history functions, the popstate
listeners, the shared closure and the instance fields untouched. -/
theorem C6_amended_flag_reset :
    (∀ (t : Tracker) (w : World), (destroy t w).2.isPageTrackingSetup = false)
    ∧ (∀ (cfg : Cfg) (u : UrlParts) (dc : DocContext) (t : Tracker)
        (w : World), w.isPageTrackingSetup = true →
          (setupPageTracking cfg u dc t w).2.histPush = w.histPush
          ∧ (setupPageTracking cfg u dc t w).2.histReplace = w.histReplace
          ∧ (setupPageTracking cfg u dc t w).2.popstateListeners
              = w.popstateListeners
          ∧ (setupPageTracking cfg u dc t w).2.nav = w.nav
          ∧ (setupPageTracking cfg u dc t w).2.isPageTrackingSetup = true
          ∧ (setupPageTracking cfg u dc t w).1 = t) := by
  constructor
  · intro t w
    rw [destroy_eq]
  · intro cfg u dc t w h
    unfold setupPageTracking
    rw [trackPageView_eq]
    simp [h]

/-- C6 witness: with the class-level flag set, a concrete
`setupPageTracking` call changes neither the history functions nor the
instance. -/
theorem C6_witness :
    (setupPageTracking cfgGood urlHome dc0 newTracker wSetup).2.histPush
        = wSetup.histPush
    ∧ (setupPageTracking cfgGood urlHome dc0 newTracker wSetup).1
        = newTracker :=
  ⟨(C6_amended_flag_reset.2 cfgGood urlHome dc0 newTracker wSetup rfl).1,
   (C6_amended_flag_reset.2 cfgGood urlHome dc0 newTracker wSetup
      rfl).2.2.2.2.2⟩

/-- C7: a navigation hook emits only when the URL changed and the gate is
open; a push to a new tracked path schedules exactly one 100 ms debounce
callback tagged `"pushstate"`, whose expiry emits exactly one page call
and reopens the gate; any second navigation arriving while the gate is
closed changes nothing. -/
theorem C7_debounced_navigation (cfg : Cfg) (dc : DocContext) (w : World)
    (ns : NavState) (newU newU2 : UrlParts) (src : String)
    (hnav : w.nav = some ns) :
    (newU.href = ns.currentUrl → navCore src newU w = w)
    ∧ (ns.isTracking = false → navCore src newU w = w)
    ∧ (w.histPush = HistFn.wrapped → ns.isTracking = true →
       newU.href ≠ ns.currentUrl → w.pending = [] →
       shouldTrack cfg.trackedPages newU.pathname = true →
         (historyPushEvent newU w).pending
             = [{ url := newU, source := "pushstate", delayMs := 100 }]
         ∧ (historyPushEvent newU w).nav
             = some { currentUrl := newU.href, isTracking := false }
         ∧ (fireNextTimer cfg dc (historyPushEvent newU w)).pages
             = w.pages ++ [mkPageEvent cfg newU "pushstate" dc]
         ∧ (fireNextTimer cfg dc (historyPushEvent newU w)).pending = []
         ∧ (fireNextTimer cfg dc (historyPushEvent newU w)).nav
             = some { currentUrl := newU.href, isTracking := true }
         ∧ (∀ src2, navCore src2 newU2 (historyPushEvent newU w)
               = historyPushEvent newU w)) := by
  refine ⟨?_, ?_, ?_⟩
  · intro he
    unfold navCore
    rw [hnav]
    have hb : (newU.href != ns.currentUrl) = false := by
      simp [he]
    simp [hb]
  · intro ht
    unfold navCore
    rw [hnav]
    simp [ht]
  · intro hw ht hne hpend hst
    have hwrap : historyPushEvent newU w
        = { w with
            nav := some { currentUrl := newU.href, isTracking := false }
            pending := [{ url := newU, source := "pushstate", delayMs := 100 }] } := by
      have hb : (newU.href != ns.currentUrl && ns.isTracking) = true := by
        rw [ht]
        simp [bne_iff_ne]
        exact hne
      simp only [historyPushEvent, pushStateWrapped, navCore, hw, hnav, hb,
        if_true, hpend, List.nil_append]
    rw [hwrap]
    refine ⟨rfl, rfl, ?_, ?_, ?_, ?_⟩
    · unfold fireNextTimer
      simp [trackPageView_eq, hst]
    · unfold fireNextTimer
      simp [trackPageView_eq]
    · unfold fireNextTimer
      simp [trackPageView_eq]
    · intro src2
      unfold navCore
      simp

/-- C7 witness: a concrete push to `/about` followed by a timer expiry
emits exactly one page call, and a second navigation inside the window
is suppressed. -/
theorem C7_witness :
    (fireNextTimer cfgGood dc0 (historyPushEvent urlAbout wNav)).pages
        = wNav.pages ++ [mkPageEvent cfgGood urlAbout "pushstate" dc0]
    ∧ (∀ src2, navCore src2 urlDeep (historyPushEvent urlAbout wNav)
         = historyPushEvent urlAbout wNav) := by
  have h := (C7_debounced_navigation cfgGood dc0 wNav
      { currentUrl := "http://h/", isTracking := true } urlAbout urlDeep
      "pushstate" rfl).2.2 rfl rfl (by decide) rfl (by decide)
  exact ⟨h.2.2.1, h.2.2.2.2.2⟩

end RudderStack
